import Mathlib

/-!
Verification of the interactive murder mystery backend
(`backend/server.py`), a shallow embedding in Lean 4.

The embedding follows the Python source closely:
* `capitalize_first_letter` models `str.capitalize` (first character
  upper-cased, the rest lower-cased; ASCII, which covers all inputs the
  claims mention).
* The clue content store models `src/data/clues/<dir>/` as a partial map
  from directory name to a directory listing; each file carries its raw
  text, and — when it parses as a JSON object — its string-valued fields.
* Errors raised in Python are modelled with `Except`; the tenacity retry
  decorator on `call_openai_with_retry` is modelled by `retry_go`, which
  retries on every exception (`retry_if_exception_type((Exception,))`),
  stops after `MAX_RETRIES` attempts (`stop_after_attempt`), and — since
  `reraise` is left at its default `False` — wraps the last attempt's
  exception in a `RetryError` (`Exc.retryErr`).
-/

deriving instance DecidableEq for Except

namespace Mystery

/-- Constant `MAX_RETRIES = 3` from the server configuration. -/
def MAX_RETRIES : Nat := 3

/-- Python `str.lower()` (ASCII; all inputs the claims mention are
ASCII). -/
def py_lower (s : String) : String :=
  String.mk (s.toList.map Char.toLower)

/-- Python `s.startswith(p)`. -/
def starts_with_chars : List Char → List Char → Bool
  | _, [] => true
  | [], _ :: _ => false
  | c :: cs, d :: ds => c = d && starts_with_chars cs ds

/-- Python `s.startswith(p)` on strings. -/
def py_startswith (s p : String) : Bool :=
  starts_with_chars s.toList p.toList

/-- Python `str.strip()`: remove leading and trailing whitespace. -/
def py_strip (s : String) : String :=
  String.mk
    (((s.toList.dropWhile Char.isWhitespace).reverse.dropWhile Char.isWhitespace).reverse)

/-- One pass of Python `str.replace`: replace non-overlapping occurrences
of the pattern `p` (nonempty) by `r`, left to right. The fuel argument
is the length of the remaining input, which suffices because every step
consumes at least one character. -/
def replace_chars (p r : List Char) : Nat → List Char → List Char
  | 0, s => s
  | _ + 1, [] => []
  | fuel + 1, c :: cs =>
    if starts_with_chars (c :: cs) p then
      r ++ replace_chars p r fuel ((c :: cs).drop p.length)
    else
      c :: replace_chars p r fuel cs

/-- Python `s.replace(pat, rep)` for a nonempty literal pattern (all
patterns used by the prompt compiler are the seven placeholder
literals). -/
def py_replace (s pat rep : String) : String :=
  if pat = "" then s
  else String.mk (replace_chars pat.toList rep.toList s.toList.length s.toList)

/-- Python `str.capitalize()` as used by `capitalize_first_letter`:
upper-case the first character, lower-case the rest; the empty string
maps to itself. -/
def capitalize_first_letter (s : String) : String :=
  match s.toList with
  | [] => ""
  | c :: cs => String.mk (c.toUpper :: cs.map Char.toLower)

/-- Model of `pathlib.PurePath.suffix` of a file name: the substring from the last
dot on, provided that dot is neither the first nor the last character;
otherwise the empty string. -/
def fileSuffix (name : String) : String :=
  let cs := name.toList
  match ((List.range cs.length).filter (fun i => cs.get? i = some '.')).getLast? with
  | some i => if 0 < i ∧ i < cs.length - 1 then String.mk (cs.drop i) else ""
  | none => ""

/-- Python `a or b` for `a` an optional string (`dict.get` result): the
default `b` is used when `a` is `None` or falsy (the empty string). -/
def py_or (a : Option String) (b : String) : String :=
  match a with
  | some s => if s = "" then b else s
  | none => b

/-- One file of a clue directory: its base name, its raw text (used for
`.txt` reads), the string-valued fields of its JSON parse when the text
parses as a JSON object (used for `.json` reads), and whether reading it
succeeds at all (`readable = false` models an I/O error). -/
structure ClueFile where
  name : String
  raw : String := ""
  parsed : Option (List (String × String)) := none
  readable : Bool := true
deriving DecidableEq, Repr

/-- The clue content store: directory name (e.g. `"day1"` or `"day 1"`)
to directory listing; `none` means the directory does not exist. -/
def ClueStore : Type := String → Option (List ClueFile)

/-- The two directory-name variants tried by `load_clue_data`, in source
order: `f"day{day}"` first, then `f"day {day}"`. -/
def day_formats (day : Int) : List String :=
  ["day" ++ toString day, "day " ++ toString day]

/-- The filter from `load_clue_data`: the file name (lower-cased) starts
with the lower-cased suspect name and the suffix (lower-cased) is
`.json` or `.txt`. -/
def is_matching (suspect : String) (f : ClueFile) : Bool :=
  py_startswith (py_lower f.name) (py_lower suspect) &&
    (py_lower (fileSuffix f.name) = ".json" || py_lower (fileSuffix f.name) = ".txt")

/-- The `matching_files` list from `load_clue_data`. -/
def matching_files (suspect : String) (files : List ClueFile) : List ClueFile :=
  files.filter (is_matching suspect)

/-- The JSON field-preference chain of `load_clue_data`:
`data.get('clue') or data.get('text') or data.get('content') or
'No clue text found in JSON'` — note Python `or` skips a present but
empty field. -/
def json_clue_text (fields : List (String × String)) : String :=
  py_or (fields.lookup "clue")
    (py_or (fields.lookup "text")
      (py_or (fields.lookup "content") "No clue text found in JSON"))

/-- Reading the selected clue file (the inner `try` of `load_clue_data`):
`some` is a successfully formatted clue, `none` models the caught
exception (unreadable file, or a `.json` file that does not parse as an
object). -/
def read_clue_file (suspect : String) (f : ClueFile) : Option String :=
  if !f.readable then none
  else if py_lower (fileSuffix f.name) = ".json" then
    match f.parsed with
    | some fields =>
        some ("🧩 Clue about " ++ capitalize_first_letter suspect ++ ": " ++ json_clue_text fields)
    | none => none
  else
    some ("🧩 Clue about " ++ capitalize_first_letter suspect ++ ": " ++ py_strip f.raw)

/-- The "no clue" sentinel returned when no directory/file variant
matches. -/
def no_clue (suspect : String) : String :=
  "No new clues for " ++ capitalize_first_letter suspect ++ " today."

/-- The `for day_format in day_formats:` loop of `load_clue_data`: a
missing directory, an empty match list, or a failed read all fall
through to the next variant. -/
def load_clue_go (store : ClueStore) (suspect : String) : List String → String
  | [] => no_clue suspect
  | fmt :: rest =>
    match store fmt with
    | none => load_clue_go store suspect rest
    | some files =>
      match matching_files suspect files with
      | [] => load_clue_go store suspect rest
      | f :: _ =>
        match read_clue_file suspect f with
        | some r => r
        | none => load_clue_go store suspect rest

/-- Function `load_clue_data(day, suspect)` from `backend/server.py`. -/
def load_clue_data (store : ClueStore) (day : Int) (suspect : String) : String :=
  load_clue_go store suspect (day_formats day)

/-- Errors the `/api/clue` endpoint can raise. -/
inductive ClueError where
  | badRequest (detail : String)
  | serverError (detail : String)
deriving DecidableEq, Repr

/-- The `/api/clue` handler `get_clue(day, suspect)`: `day` is a typed
(required) integer parameter, so `day is None` is never true; only the
suspect emptiness check can reject. The `except` branch converting a
loader exception to a 500 is unreachable because `load_clue_data` is
total. -/
def get_clue (store : ClueStore) (day : Int) (suspect : String) : Except ClueError String :=
  if suspect = "" then
    .error (.badRequest "Missing or invalid day or suspect parameter")
  else
    .ok (load_clue_data store day suspect)

/-- Python exceptions relevant to the generation path:
`http` is fastapi's `HTTPException(status_code, detail)`; `err` is any
other exception, identified by its message; `retryErr` is tenacity's
`RetryError`, which wraps the exception of the last failed attempt. -/
inductive Exc where
  | http (status : Nat) (detail : String)
  | err (msg : String)
  | retryErr (last : Exc)
deriving DecidableEq, Repr

/-- What one upstream OpenAI call does: return generated text, or raise
an exception that optionally carries an HTTP `status_code`. -/
inductive UpstreamOutcome where
  | success (text : String)
  | failure (status : Option Nat) (msg : String)
deriving DecidableEq, Repr

/-- The boundary reclassification in `call_openai_with_retry`'s `except`
block: status 401/429/402 become `HTTPException`s with fixed details,
anything else is re-raised as-is. -/
def classify_exc (status : Option Nat) (msg : String) : Exc :=
  match status with
  | some 401 => .http 401 "Invalid OpenAI API key"
  | some 429 => .http 429 "OpenAI API rate limit exceeded"
  | some 402 => .http 402 "OpenAI API quota exceeded"
  | _ => .err msg

/-- The body of `call_openai_with_retry` for a single attempt: on
success return `completion.choices[0].message.content.strip()`; on
failure raise the (re)classified exception. -/
def call_openai_attempt (o : UpstreamOutcome) : Except Exc String :=
  match o with
  | .success text => .ok (py_strip text)
  | .failure status msg => .error (classify_exc status msg)

/-- The tenacity `@retry` wrapper: `retry_if_exception_type((Exception,))`
retries on every exception, `stop_after_attempt(MAX_RETRIES)` bounds the
attempts, and `reraise` is left at its default `False`, so exhaustion
raises `RetryError` wrapping the last attempt's exception. `upstream i`
is the behaviour of the `i`-th attempt (0-based); the fuel counts the
attempts still allowed. -/
def retry_go (upstream : Nat → UpstreamOutcome) : Nat → Nat → Except Exc String
  | _, 0 => .error (.err "no attempts allowed")
  | i, fuel + 1 =>
    match call_openai_attempt (upstream i) with
    | .ok t => .ok t
    | .error e => if fuel = 0 then .error (.retryErr e) else retry_go upstream (i + 1) fuel

/-- Function `call_openai_with_retry(messages, temperature)`: the messages and
temperature are folded into `upstream`, the behaviour of the stubbed
generation service for this request. -/
def call_openai_with_retry (upstream : Nat → UpstreamOutcome) : Except Exc String :=
  retry_go upstream 0 MAX_RETRIES

/-- How many upstream attempts the retry wrapper issues. -/
def retry_attempts_go (upstream : Nat → UpstreamOutcome) : Nat → Nat → Nat
  | _, 0 => 0
  | i, fuel + 1 =>
    match call_openai_attempt (upstream i) with
    | .ok _ => 1
    | .error _ => if fuel = 0 then 1 else 1 + retry_attempts_go upstream (i + 1) fuel

/-- Number of upstream calls issued by `call_openai_with_retry`. -/
def retry_attempts (upstream : Nat → UpstreamOutcome) : Nat :=
  retry_attempts_go upstream 0 MAX_RETRIES

/-- The `timeline` object of a suspect's JSON character sheet (fields
absent from the JSON are `none`). -/
structure Timeline where
  time_range : Option String := none
  location : Option String := none
  claimed_location : Option String := none
deriving DecidableEq, Repr

/-- A parsed suspect character sheet (string-valued fields of interest;
absent fields are `none`). -/
structure SuspectData where
  backstory : Option String := none
  timeline : Option Timeline := none
  relationship_to_victim : Option String := none
  tone : Option String := none
deriving DecidableEq, Repr

/-- One entry of the suspect content store: the file is absent, present
but not valid JSON, or present and parsed. -/
inductive SuspectFile where
  | absent
  | malformed
  | valid (data : SuspectData)
deriving DecidableEq, Repr

/-- The suspect content store, keyed by file base name (without the
`.json` extension). -/
def SuspectStore : Type := String → SuspectFile

/-- Function `load_suspect_data(name)`: reads
`src/data/suspects/<name.lower()>.json`; a missing file or a JSON parse
error both yield the empty dict `{}` (all-defaults profile) — the parse
error is caught, never propagated. -/
def load_suspect_data (store : SuspectStore) (name : String) : SuspectData :=
  match store (py_lower name) with
  | .valid data => data
  | .malformed => {}
  | .absent => {}

/-- A role-tagged chat message. -/
structure Message where
  role : String
  content : String
deriving DecidableEq, Repr

/-- The fixed system message of `ask_question`. -/
def system_message : Message :=
  ⟨"system",
   "You are a detective AI assistant. Your task is to help generate responses for a character in a murder mystery interrogation."⟩

/-- The template-filling chain of `ask_question` (lines 227-239 of
`backend/server.py`): sequential literal `str.replace` of the seven
placeholders; `{location}` is filled with
`timeline.get('claimed_location') or timeline.get('location', '')`. -/
def fill_prompt (template suspect question : String) (data : SuspectData) : String :=
  let backstory := data.backstory.getD ""
  let timeline := data.timeline.getD {}
  let relationship := data.relationship_to_victim.getD "Unknown relationship"
  let tone := data.tone.getD "neutral"
  py_replace
    (py_replace
      (py_replace
        (py_replace
          (py_replace
            (py_replace
              (py_replace template "{name}" (capitalize_first_letter suspect))
              "{question}" question)
            "{tone}" tone)
          "{backstory}" backstory)
        "{time_range}" (timeline.time_range.getD ""))
      "{location}" (py_or timeline.claimed_location (timeline.location.getD "")))
    "{relationship_to_victim}" relationship

/-- The two-message generation request `ask_question` hands to
`call_openai_with_retry`. -/
def ask_messages (template : String) (store : SuspectStore) (suspect question : String) :
    List Message :=
  [system_message, ⟨"user", fill_prompt template suspect question (load_suspect_data store suspect)⟩]

/-- The error surface of the `/api/ask` handler:
`badRequest` is the `HTTPException(400, ...)` of input validation;
`passthrough` is the `except HTTPException: raise` branch;
`generic` is the `except Exception` branch, an `HTTPException(500,
"Error generating response: " + str(error))` whose detail string is
formatted from the carried cause. -/
inductive AskError where
  | badRequest (detail : String)
  | passthrough (status : Nat) (detail : String)
  | generic (cause : Exc)
deriving DecidableEq, Repr

/-- The `/api/ask` handler `ask_question(request)`. Validation uses
Python truthiness (`not request.suspect or not request.question`), i.e.
only the empty string is rejected. The prompt template is a given
string: its presence is a deployment precondition. `stub` is the
behaviour of the upstream generation service as a function of the
messages sent and the attempt index. -/
def ask_question (template : String) (store : SuspectStore)
    (stub : List Message → Nat → UpstreamOutcome) (suspect question : String) :
    Except AskError String :=
  if suspect = "" ∨ question = "" then
    .error (.badRequest "Missing suspect or question")
  else
    match call_openai_with_retry (stub (ask_messages template store suspect question)) with
    | .ok r => .ok r
    | .error (.http s d) => .error (.passthrough s d)
    | .error e => .error (.generic e)

/-- Number of upstream calls a run of `ask_question` performs. -/
def ask_attempts (template : String) (store : SuspectStore)
    (stub : List Message → Nat → UpstreamOutcome) (suspect question : String) : Nat :=
  if suspect = "" ∨ question = "" then 0
  else retry_attempts (stub (ask_messages template store suspect question))

/-! ### Helper lemmas -/

/-- Unfolding of one retry step. -/
theorem retry_go_succ (u : Nat → UpstreamOutcome) (i fuel : Nat) :
    retry_go u i (fuel + 1) =
      match call_openai_attempt (u i) with
      | .ok t => .ok t
      | .error e => if fuel = 0 then .error (.retryErr e) else retry_go u (i + 1) fuel := rfl

/-- Unfolding of one attempt-counting step. -/
theorem retry_attempts_go_succ (u : Nat → UpstreamOutcome) (i fuel : Nat) :
    retry_attempts_go u i (fuel + 1) =
      match call_openai_attempt (u i) with
      | .ok _ => 1
      | .error _ => if fuel = 0 then 1 else 1 + retry_attempts_go u (i + 1) fuel := rfl

/-- When every attempt raises, the retry loop ends in a `RetryError`
wrapping the exception of the last attempt. -/
theorem retry_go_all_fail (u : Nat → UpstreamOutcome) (exc : Nat → Exc)
    (h : ∀ i, call_openai_attempt (u i) = .error (exc i)) :
    ∀ fuel i, retry_go u i (fuel + 1) = .error (.retryErr (exc (i + fuel))) := by
  intro fuel
  induction fuel with
  | zero =>
    intro i
    rw [retry_go_succ, h i]
    simp
  | succ f ih =>
    intro i
    rw [retry_go_succ, h i]
    simp only [Nat.succ_ne_zero, if_false]
    rw [ih (i + 1)]
    have : i + 1 + f = i + (f + 1) := by omega
    rw [this]

/-- When every attempt raises, the loop issues as many attempts as the
fuel allows. -/
theorem retry_attempts_go_all_fail (u : Nat → UpstreamOutcome)
    (h : ∀ i, ∃ e, call_openai_attempt (u i) = .error e) :
    ∀ fuel i, retry_attempts_go u i fuel = fuel := by
  intro fuel
  induction fuel with
  | zero => intro i; rfl
  | succ f ih =>
    intro i
    obtain ⟨e, he⟩ := h i
    rw [retry_attempts_go_succ, he]
    show (if f = 0 then 1 else 1 + retry_attempts_go u (i + 1) f) = f + 1
    cases f with
    | zero => simp
    | succ g =>
      rw [if_neg (Nat.succ_ne_zero g), ih (i + 1)]
      omega

/-- A first-attempt success short-circuits the retry loop. -/
theorem retry_first_success (u : Nat → UpstreamOutcome) (t : String)
    (h : call_openai_attempt (u 0) = .ok t) :
    call_openai_with_retry u = .ok t := by
  show retry_go u 0 (2 + 1) = .ok t
  rw [retry_go_succ, h]

/-- When no directory of the given list holds a matching file, the clue
loop falls through to the sentinel. -/
theorem load_clue_go_no_match (store : ClueStore) (suspect : String) :
    ∀ fmts : List String,
      (∀ fmt ∈ fmts, ∀ files, store fmt = some files → matching_files suspect files = []) →
      load_clue_go store suspect fmts = no_clue suspect := by
  intro fmts
  induction fmts with
  | nil => intro _; rfl
  | cons fmt rest ih =>
    intro h
    have hrest : ∀ f ∈ rest, ∀ files, store f = some files → matching_files suspect files = [] :=
      fun f hf => h f (List.mem_cons_of_mem _ hf)
    cases hs : store fmt with
    | none =>
      simp only [load_clue_go, hs]
      exact ih hrest
    | some files =>
      have hm := h fmt (List.mem_cons_self _ _) files hs
      simp only [load_clue_go, hs, hm]
      exact ih hrest

/-- The clue text selected when the first day-directory variant exists
and its first matching file is a readable JSON object. -/
theorem load_clue_first_variant_json (store : ClueStore) (day : Int) (suspect : String)
    (files : List ClueFile) (f : ClueFile) (fields : List (String × String))
    (hstore : store ("day" ++ toString day) = some files)
    (hhead : (matching_files suspect files).head? = some f)
    (hjson : py_lower (fileSuffix f.name) = ".json")
    (hread : f.readable = true)
    (hfields : f.parsed = some fields) :
    load_clue_data store day suspect =
      "🧩 Clue about " ++ capitalize_first_letter suspect ++ ": " ++ json_clue_text fields := by
  obtain ⟨tl, htl⟩ : ∃ tl, matching_files suspect files = f :: tl := by
    cases hm : matching_files suspect files with
    | nil => rw [hm] at hhead; cases hhead
    | cons g t =>
      rw [hm] at hhead
      simp only [List.head?_cons, Option.some.injEq] at hhead
      exact ⟨t, by rw [hhead]⟩
  have hr : read_clue_file suspect f =
      some ("🧩 Clue about " ++ capitalize_first_letter suspect ++ ": " ++ json_clue_text fields) := by
    unfold read_clue_file
    rw [hread, hjson, hfields]
    simp
  unfold load_clue_data day_formats
  simp only [load_clue_go, hstore, htl, hr]

/-! ### Spec-side formulation of the clue lookup (for the refinement
claim about `load_clue_data`) -/

/-- Spec-worded field chain: the first key among `clue`, `text`,
`content` whose value is present and non-empty wins (an explicit
ordered list of candidates tried in sequence, as the spec's design
notes describe the fallback chains). -/
def first_nonempty_field (fields : List (String × String)) : List String → Option String
  | [] => none
  | k :: ks =>
    match fields.lookup k with
    | some v => if v ≠ "" then some v else first_nonempty_field fields ks
    | none => first_nonempty_field fields ks

/-- Spec-worded JSON clue text: first non-empty field of the chain, else
the literal fallback. -/
def json_clue_text_spec (fields : List (String × String)) : String :=
  (first_nonempty_field fields ["clue", "text", "content"]).getD "No clue text found in JSON"

/-- Spec-worded read of a selected clue file (same as the source read,
with the spec-worded field chain). -/
def read_clue_file_spec (suspect : String) (f : ClueFile) : Option String :=
  if !f.readable then none
  else if py_lower (fileSuffix f.name) = ".json" then
    match f.parsed with
    | some fields =>
        some ("🧩 Clue about " ++ capitalize_first_letter suspect ++ ": " ++
          json_clue_text_spec fields)
    | none => none
  else
    some ("🧩 Clue about " ++ capitalize_first_letter suspect ++ ": " ++ py_strip f.raw)

/-- Spec-worded search: the first day-directory variant that exists,
contains a matching file, and whose selected file reads successfully
wins; a missing directory, an empty match list, or a failed read all
continue the search with the next variant. -/
def first_clue_hit (store : ClueStore) (suspect : String) : List String → Option String
  | [] => none
  | fmt :: rest =>
    match store fmt with
    | some files =>
      match matching_files suspect files with
      | f :: _ =>
        match read_clue_file_spec suspect f with
        | some r => some r
        | none => first_clue_hit store suspect rest
      | [] => first_clue_hit store suspect rest
    | none => first_clue_hit store suspect rest

/-- Spec-worded clue lookup: the first hit over the ordered variant
list, else the sentinel. -/
def loadClue_spec (store : ClueStore) (day : Int) (suspect : String) : String :=
  (first_clue_hit store suspect (day_formats day)).getD (no_clue suspect)

/-- The source's truthiness chain agrees with the spec-worded
first-non-empty-field chain. -/
theorem json_clue_text_eq_spec (fields : List (String × String)) :
    json_clue_text fields = json_clue_text_spec fields := by
  unfold json_clue_text json_clue_text_spec
  simp only [first_nonempty_field]
  cases h1 : fields.lookup "clue" <;> cases h2 : fields.lookup "text" <;>
    cases h3 : fields.lookup "content" <;>
      simp [py_or, h1, h2, h3] <;> split_ifs <;> simp_all

/-- Source read and spec-worded read agree. -/
theorem read_clue_file_eq_spec (suspect : String) (f : ClueFile) :
    read_clue_file suspect f = read_clue_file_spec suspect f := by
  simp only [read_clue_file, read_clue_file_spec, json_clue_text_eq_spec]

/-- The source loop agrees with the spec-worded first-hit search. -/
theorem load_clue_go_eq_first_hit (store : ClueStore) (suspect : String) :
    ∀ fmts : List String,
      load_clue_go store suspect fmts =
        (first_clue_hit store suspect fmts).getD (no_clue suspect) := by
  intro fmts
  induction fmts with
  | nil => rfl
  | cons fmt rest ih =>
    cases hs : store fmt with
    | none =>
      simp only [load_clue_go, first_clue_hit, hs]
      exact ih
    | some files =>
      cases hm : matching_files suspect files with
      | nil =>
        simp only [load_clue_go, first_clue_hit, hs, hm]
        exact ih
      | cons f tl =>
        cases hr : read_clue_file suspect f with
        | some r =>
          have hr' : read_clue_file_spec suspect f = some r := by
            rw [← read_clue_file_eq_spec, hr]
          simp only [load_clue_go, first_clue_hit, hs, hm, hr, hr', Option.getD_some]
        | none =>
          have hr' : read_clue_file_spec suspect f = none := by
            rw [← read_clue_file_eq_spec, hr]
          simp only [load_clue_go, first_clue_hit, hs, hm, hr, hr']
          exact ih

/-! ### Claims -/

/-- Claim C1 (status: code_bug — behaviour of the code at the failing
input). When the upstream service returns an unauthorized (401) status
on every attempt, `ask_question` does NOT surface the distinct
authentication-failure kind: the classification inside
`call_openai_with_retry` raises `HTTPException(401, "Invalid OpenAI API
key")`, but the tenacity decorator retries every `Exception` (including
`HTTPException`) and, with `reraise` left at its default `False`, wraps
the last one in a `RetryError`; `ask_question`'s
`except HTTPException: raise` therefore never fires and the generic
`except Exception` branch surfaces a 500 instead. -/
theorem ask_unauthorized_surfaces_generic_500 :
    ask_question "{name}: {question}" (fun _ => .absent)
        (fun _ _ => .failure (some 401) "Unauthorized") "alice" "q"
      = .error (.generic (.retryErr (.http 401 "Invalid OpenAI API key"))) ∧
    ask_question "{name}: {question}" (fun _ => .absent)
        (fun _ _ => .failure (some 401) "Unauthorized") "alice" "q"
      ≠ .error (.passthrough 401 "Invalid OpenAI API key") := by decide

/-- Claim C2 counterexample: a whitespace-only suspect name is NOT
rejected — Python truthiness only rejects the empty string — and one
upstream call is performed (the stub succeeds on the first attempt). -/
theorem ask_whitespace_only_not_rejected :
    ask_question "{question}" (fun _ => .absent) (fun _ _ => .success "ok") " " "q" = .ok "ok" ∧
    ask_attempts "{question}" (fun _ => .absent) (fun _ _ => .success "ok") " " "q" = 1 := by
  decide

/-- Claim C2 (amended): for every suspect/question pair in which at
least one of the two is the empty string, `ask_question` returns the
input-validation (bad-request) failure and performs zero upstream
calls. -/
theorem ask_rejects_only_empty_inputs (template : String) (store : SuspectStore)
    (stub : List Message → Nat → UpstreamOutcome) (suspect question : String)
    (h : suspect = "" ∨ question = "") :
    ask_question template store stub suspect question
      = .error (.badRequest "Missing suspect or question") ∧
    ask_attempts template store stub suspect question = 0 := by
  constructor
  · unfold ask_question
    rw [if_pos h]
  · unfold ask_attempts
    rw [if_pos h]

/-- Claim C2 witness: the amended theorem at a concrete input. -/
theorem ask_rejects_only_empty_inputs_witness :
    ask_question "{question}" (fun _ => .absent) (fun _ _ => .success "ok") "" "q"
      = .error (.badRequest "Missing suspect or question") ∧
    ask_attempts "{question}" (fun _ => .absent) (fun _ _ => .success "ok") "" "q" = 0 :=
  ask_rejects_only_empty_inputs "{question}" (fun _ => .absent)
    (fun _ _ => .success "ok") "" "q" (Or.inl rfl)

/-- Claim C3: when every upstream attempt fails, the retry wrapper
issues exactly `MAX_RETRIES` attempts and surfaces the `RetryError`
wrapping the last attempt's exception (which carries the last cause's
message); `ask_question` then surfaces it through the generic
(500-class) failure. -/
theorem generate_exhausts_max_retries (upstream : Nat → UpstreamOutcome)
    (hfail : ∀ i, ∃ s m, upstream i = .failure s m) :
    ∃ e, call_openai_attempt (upstream (MAX_RETRIES - 1)) = .error e ∧
      retry_attempts upstream = MAX_RETRIES ∧
      call_openai_with_retry upstream = .error (.retryErr e) ∧
      ∀ template store suspect question, suspect ≠ "" → question ≠ "" →
        ask_question template store (fun _ => upstream) suspect question
          = .error (.generic (.retryErr e)) := by
  have hexc : ∀ i, ∃ e, call_openai_attempt (upstream i) = .error e := by
    intro i
    obtain ⟨s, m, h⟩ := hfail i
    exact ⟨classify_exc s m, by rw [h]; rfl⟩
  choose exc hexc using hexc
  have hcall : call_openai_with_retry upstream = .error (.retryErr (exc 2)) := by
    show retry_go upstream 0 (2 + 1) = _
    rw [retry_go_all_fail upstream exc hexc 2 0]
  refine ⟨exc (MAX_RETRIES - 1), hexc _, ?_, hcall, ?_⟩
  · exact retry_attempts_go_all_fail upstream (fun i => ⟨exc i, hexc i⟩) MAX_RETRIES 0
  · intro template store suspect question hs hq
    simp only [ask_question, if_neg (not_or.mpr ⟨hs, hq⟩)]
    rw [hcall]
    rfl

/-- Claim C3 witness: a stub that always fails with an unclassified
cause exhausts the three attempts, and the surfaced generic failure
carries the last cause's message `"boom"`. -/
theorem generate_exhausts_max_retries_witness :
    retry_attempts (fun _ => UpstreamOutcome.failure none "boom") = MAX_RETRIES ∧
    call_openai_with_retry (fun _ => UpstreamOutcome.failure none "boom")
      = .error (.retryErr (.err "boom")) := by
  obtain ⟨e, he, h1, h2, _⟩ :=
    generate_exhausts_max_retries (fun _ => .failure none "boom") (fun _ => ⟨none, "boom", rfl⟩)
  obtain rfl : e = Exc.err "boom" := by
    simpa [call_openai_attempt, classify_exc] using he.symm
  exact ⟨h1, h2⟩

/-- Claim C4: whenever no clue file matches the suspect in any of the
two recognized day-directory variants, `get_clue` returns the sentinel
string as a success value (`Except.ok`), not an error. -/
theorem getClue_no_match_returns_sentinel (store : ClueStore) (day : Int) (suspect : String)
    (hs : suspect ≠ "")
    (hm : ∀ fmt ∈ day_formats day, ∀ files, store fmt = some files →
      matching_files suspect files = []) :
    get_clue store day suspect = .ok (no_clue suspect) := by
  unfold get_clue
  rw [if_neg hs]
  unfold load_clue_data
  rw [load_clue_go_no_match store suspect (day_formats day) hm]

/-- Claim C4 witness: an empty content store at a concrete day and
suspect. -/
theorem getClue_no_match_returns_sentinel_witness :
    get_clue (fun _ => none) 5 "alice" = .ok (no_clue "alice") :=
  getClue_no_match_returns_sentinel (fun _ => none) 5 "alice" (by decide)
    (fun _ _ _ h => Option.noConfusion h)

/-- The content store of a clue file `{"clue": ""}` for suspect alice at
the first recognized path variant of day 1. -/
def empty_clue_store : ClueStore := fun fmt =>
  if fmt = "day1" then some [{ name := "alice.json", parsed := some [("clue", "")] }] else none

/-- Claim C5 counterexample: with the clue file `{"clue": "X"}`
instantiated at `X = ""`, `get_clue` returns the fallback message, not
the claimed `"🧩 Clue about Alice: "`. -/
theorem getClue_roundtrip_fails_for_empty_clue :
    get_clue empty_clue_store 1 "alice" = .ok "🧩 Clue about Alice: No clue text found in JSON" ∧
    ("🧩 Clue about Alice: No clue text found in JSON" : String) ≠ "🧩 Clue about Alice: " := by
  decide

/-- Claim C5 (amended): for every non-empty clue text `X`, when the
first recognized path variant holds a readable JSON clue file whose
first matching file parses to `{"clue": X}`, `get_clue` returns exactly
the formatted clue message. -/
theorem getClue_json_roundtrip_nonempty (store : ClueStore) (day : Int) (suspect X : String)
    (files : List ClueFile) (f : ClueFile)
    (hs : suspect ≠ "") (hX : X ≠ "")
    (hstore : store ("day" ++ toString day) = some files)
    (hhead : (matching_files suspect files).head? = some f)
    (hjson : py_lower (fileSuffix f.name) = ".json")
    (hread : f.readable = true)
    (hfields : f.parsed = some [("clue", X)]) :
    get_clue store day suspect
      = .ok ("🧩 Clue about " ++ capitalize_first_letter suspect ++ ": " ++ X) := by
  have h := load_clue_first_variant_json store day suspect files f [("clue", X)]
    hstore hhead hjson hread hfields
  have hx : json_clue_text [("clue", X)] = X := by
    unfold json_clue_text
    simp [List.lookup, py_or, hX]
  unfold get_clue
  rw [if_neg hs, h, hx]

/-- Claim C5 witness: the amended round trip at a concrete store with
`X = "saw a shadow"`. -/
theorem getClue_json_roundtrip_nonempty_witness :
    get_clue
      (fun fmt => if fmt = "day1" then
        some [{ name := "alice.json", parsed := some [("clue", "saw a shadow")] }] else none)
      1 "alice"
      = .ok ("🧩 Clue about " ++ capitalize_first_letter "alice" ++ ": " ++ "saw a shadow") :=
  getClue_json_roundtrip_nonempty
    (fun fmt => if fmt = "day1" then
      some [{ name := "alice.json", parsed := some [("clue", "saw a shadow")] }] else none)
    1 "alice" "saw a shadow"
    [{ name := "alice.json", parsed := some [("clue", "saw a shadow")] }]
    { name := "alice.json", parsed := some [("clue", "saw a shadow")] }
    (by decide) (by decide) (by decide) (by decide) (by decide) rfl rfl

/-- Claim C6 counterexample: with `claimed_location` present but empty
(falsy) and `location` present, the compiled prompt substitutes the
`location` value `"the library"` into the `{location}` slot, not the
present `claimed_location` value `""` — so "present" preference as
claimed fails; the code prefers `claimed_location` only when truthy. -/
theorem fill_prompt_empty_claimed_location_uses_location :
    fill_prompt
      "{name}|{question}|{tone}|{backstory}|{time_range}|{location}|{relationship_to_victim}"
      "alice" "q"
      { backstory := some "b", relationship_to_victim := some "r", tone := some "calm",
        timeline := some { time_range := some "t", location := some "the library",
                           claimed_location := some "" } }
      = "Alice|q|calm|b|t|the library|r" ∧
    ("Alice|q|calm|b|t|the library|r" : String) ≠ "Alice|q|calm|b|t||r" := by decide

/-- Claim C6 (amended): whenever the profile's timeline carries a
non-empty `claimed_location`, the compiled prompt substitutes the
`claimed_location` value into the `{location}` slot (so the `location`
value is not used). -/
theorem fill_prompt_prefers_nonempty_claimed_location
    (template suspect question : String) (data : SuspectData) (tl : Timeline) (c : String)
    (htl : data.timeline = some tl) (hc : tl.claimed_location = some c) (hne : c ≠ "") :
    fill_prompt template suspect question data =
      py_replace
        (py_replace
          (py_replace
            (py_replace
              (py_replace
                (py_replace (py_replace template "{name}" (capitalize_first_letter suspect))
                  "{question}" question)
                "{tone}" (data.tone.getD "neutral"))
              "{backstory}" (data.backstory.getD ""))
            "{time_range}" (tl.time_range.getD ""))
          "{location}" c)
        "{relationship_to_victim}" (data.relationship_to_victim.getD "Unknown relationship") := by
  simp only [fill_prompt, htl, Option.getD_some, hc, py_or, if_neg hne]

/-- Claim C6 witness: with both locations present and `claimed_location`
non-empty, the slot receives the `claimed_location` value. -/
theorem fill_prompt_prefers_nonempty_claimed_location_witness :
    fill_prompt "{location}" "a" "q"
      { timeline := some { location := some "the library", claimed_location := some "the attic" } }
      = "the attic" := by
  rw [fill_prompt_prefers_nonempty_claimed_location "{location}" "a" "q"
    { timeline := some { location := some "the library", claimed_location := some "the attic" } }
    { location := some "the library", claimed_location := some "the attic" }
    "the attic" rfl rfl (by decide)]
  decide

/-- Claim C7: for a missing or malformed suspect file,
`load_suspect_data` returns the all-defaults profile (it is a total
function: the JSON parse error is caught inside it), the generation
request is compiled from the default values (neutral tone, empty
backstory and timeline fields, `"Unknown relationship"`), and
`ask_question` still attempts generation — a first-attempt success is
returned as the reply. -/
theorem load_suspect_defaults_and_ask_proceeds (template : String) (store : SuspectStore)
    (stub : List Message → Nat → UpstreamOutcome) (name question : String)
    (hn : name ≠ "") (hq : question ≠ "")
    (hf : store (py_lower name) = .absent ∨ store (py_lower name) = .malformed) :
    load_suspect_data store name = ({} : SuspectData) ∧
    ask_messages template store name question =
      [system_message,
       ⟨"user",
        py_replace
          (py_replace
            (py_replace
              (py_replace
                (py_replace
                  (py_replace (py_replace template "{name}" (capitalize_first_letter name))
                    "{question}" question)
                  "{tone}" "neutral")
                "{backstory}" "")
              "{time_range}" "")
            "{location}" "")
          "{relationship_to_victim}" "Unknown relationship"⟩] ∧
    ∀ t, stub (ask_messages template store name question) 0 = .success t →
      ask_question template store stub name question = .ok (py_strip t) := by
  have hload : load_suspect_data store name = ({} : SuspectData) := by
    unfold load_suspect_data
    rcases hf with h | h <;> rw [h]
  refine ⟨hload, ?_, ?_⟩
  · unfold ask_messages
    rw [hload]
    rfl
  · intro t ht
    unfold ask_question
    rw [if_neg (not_or.mpr ⟨hn, hq⟩)]
    rw [retry_first_success _ (py_strip t) (by rw [ht]; rfl)]

/-- Claim C7 witness: a store with no file for bob; generation still
happens and the stub reply (trimmed) is returned. -/
theorem load_suspect_defaults_and_ask_proceeds_witness :
    load_suspect_data (fun _ => .absent) "bob" = ({} : SuspectData) ∧
    ask_question "Q: {question} T: {tone}" (fun _ => .absent)
      (fun _ _ => .success " hi ") "bob" "who" = .ok "hi" := by
  obtain ⟨h1, _, h3⟩ := load_suspect_defaults_and_ask_proceeds "Q: {question} T: {tone}"
    (fun _ => .absent) (fun _ _ => .success " hi ") "bob" "who"
    (by decide) (by decide) (Or.inl rfl)
  refine ⟨h1, ?_⟩
  rw [h3 " hi " rfl]
  decide

/-- The store refuting the claim that the clue search is confined to
the first existing day-directory variant: `day1` exists but holds no
matching file, `day 1` holds the clue. -/
def c8_store : ClueStore := fun fmt =>
  if fmt = "day1" then some []
  else if fmt = "day 1" then some [{ name := "alice.txt", raw := "X\n" }]
  else none

/-- Claim C8 counterexample: the first existing directory (`day1`) has
no matching file, yet the result is the clue from the second variant
(`day 1`), not the sentinel — so selection is not confined to "the
first existing directory". -/
theorem load_clue_searches_past_first_existing_dir :
    c8_store "day1" = some [] ∧
    load_clue_data c8_store 1 "alice" = "🧩 Clue about Alice: X" ∧
    load_clue_data c8_store 1 "alice" ≠ no_clue "alice" := by decide

/-- Claim C8 (amended): `load_clue_data` iterates the variants in the
fixed order `day{N}`, `day {N}`; the first variant whose directory
exists, contains a matching file (name starts with the lower-cased
suspect name, extension `.json`/`.txt`, case-insensitive), and whose
first matching file reads successfully supplies the result — a JSON
file through the first non-empty field of the chain
`clue` → `text` → `content` (else the literal fallback text), a `.txt`
file through its trimmed content; otherwise the sentinel. -/
theorem load_clue_data_eq_spec (store : ClueStore) (day : Int) (suspect : String) :
    load_clue_data store day suspect = loadClue_spec store day suspect :=
  load_clue_go_eq_first_hit store suspect (day_formats day)

/-- Claim C9 counterexample: `day = 0` is not a positive integer, yet
`get_clue` does not return the missing-parameter failure — the handler
only checks `day is None` (never true for the typed parameter) and
proceeds to the lookup, returning the sentinel as a success. -/
theorem getClue_day_zero_not_rejected :
    get_clue (fun _ => none) 0 "alice" = .ok "No new clues for Alice today." := by decide

/-- Claim C9 (amended): `get_clue` rejects exactly the empty suspect
with the missing-parameter (bad-request) failure; the day value is not
range-checked, and any integer day (zero or negative included)
proceeds to the clue lookup. -/
theorem getClue_validation_only_empty_suspect (store : ClueStore) (day : Int) (suspect : String) :
    (suspect = "" →
      get_clue store day suspect
        = .error (.badRequest "Missing or invalid day or suspect parameter")) ∧
    (suspect ≠ "" → get_clue store day suspect = .ok (load_clue_data store day suspect)) := by
  constructor
  · intro h
    unfold get_clue
    rw [if_pos h]
  · intro h
    unfold get_clue
    rw [if_neg h]

/-- Claim C9 witness: the amended validation at a concrete (negative)
day. -/
theorem getClue_validation_only_empty_suspect_witness :
    get_clue (fun _ => none) (-3) ""
      = .error (.badRequest "Missing or invalid day or suspect parameter") ∧
    get_clue (fun _ => none) (-3) "bob" = .ok (load_clue_data (fun _ => none) (-3) "bob") :=
  ⟨(getClue_validation_only_empty_suspect (fun _ => none) (-3) "").1 rfl,
   (getClue_validation_only_empty_suspect (fun _ => none) (-3) "bob").2 (by decide)⟩

/-- Claim C10: a JSON field that is present but empty is skipped as if
absent: for a clue file `{"clue": ""}` (no `text` or `content` field)
the message carries the fallback text, not an empty clue text. -/
theorem getClue_empty_clue_field_falls_back (store : ClueStore) (day : Int) (suspect : String)
    (files : List ClueFile) (f : ClueFile)
    (hs : suspect ≠ "")
    (hstore : store ("day" ++ toString day) = some files)
    (hhead : (matching_files suspect files).head? = some f)
    (hjson : py_lower (fileSuffix f.name) = ".json")
    (hread : f.readable = true)
    (hfields : f.parsed = some [("clue", "")]) :
    get_clue store day suspect
      = .ok ("🧩 Clue about " ++ capitalize_first_letter suspect ++ ": "
          ++ "No clue text found in JSON") := by
  have h := load_clue_first_variant_json store day suspect files f [("clue", "")]
    hstore hhead hjson hread hfields
  have hx : json_clue_text [("clue", "")] = "No clue text found in JSON" := by decide
  unfold get_clue
  rw [if_neg hs, h, hx]

/-- Claim C10 witness: the fallback at the concrete `{"clue": ""}`
store. -/
theorem getClue_empty_clue_field_falls_back_witness :
    get_clue empty_clue_store 1 "alice"
      = .ok ("🧩 Clue about " ++ capitalize_first_letter "alice" ++ ": "
          ++ "No clue text found in JSON") :=
  getClue_empty_clue_field_falls_back empty_clue_store 1 "alice"
    [{ name := "alice.json", parsed := some [("clue", "")] }]
    { name := "alice.json", parsed := some [("clue", "")] }
    (by decide) (by decide) (by decide) (by decide) (by decide) rfl

end Mystery

